import Mathlib

/-!
Verification development for the LabMonitor scheduler core
(`labmonitor/queue_job.py`, `labmonitor/queue.py`, `labmonitor/data.py`).

The Python data frames are embedded as Lean lists of records; each
scheduler operation is translated function-by-function from the source.
Remote effects (SSH probes, scp copies, SMTP sends) are supplied by
explicit oracle records, mirroring the exact way their results flow back
into the control code.
-/

namespace LabMonitor

/-! ## String helpers (executable counterparts of the Python string ops used) -/

/-- `s.split(",")` from Python: split on commas, keeping empty fields
(`"".split(",") == [""]`). -/
def splitCommaAux (cur : List Char) : List Char → List String
  | [] => [String.mk cur.reverse]
  | c :: cs =>
    if c == ',' then String.mk cur.reverse :: splitCommaAux [] cs
    else splitCommaAux (c :: cur) cs

def splitComma (s : String) : List String :=
  splitCommaAux [] s.toList

/-- Character-list version of `str.startswith`. -/
def leadsWith : List Char → List Char → Bool
  | [], _ => true
  | _ :: _, [] => false
  | a :: as, b :: bs => a == b && leadsWith as bs

/-- Substring containment on character lists. -/
def containsSub (pat : List Char) : List Char → Bool
  | [] => pat.isEmpty
  | c :: rest => leadsWith pat (c :: rest) || containsSub pat rest

/-- `"Null" in s` with `case=False` (pandas `str.contains("Null", case=False)`). -/
def hasNullSub (s : String) : Bool :=
  containsSub "null".toList (s.toList.map Char.toLower)

/-- `os.path.splitext`-style backup path: `root + "_old" + ext`
(`data.py` and `queue_job.py` build the `_old` sibling this way). -/
def splitDotAux (cur : List Char) : List Char → List String
  | [] => [String.mk cur.reverse]
  | c :: cs =>
    if c == '.' then String.mk cur.reverse :: splitDotAux [] cs
    else splitDotAux (c :: cur) cs

def backupPath (p : String) : String :=
  let parts := splitDotAux [] p.toList
  match parts with
  | [] => p ++ "_old"
  | [_] => p ++ "_old"
  | _ => String.intercalate "." parts.dropLast ++ "_old" ++ "." ++ (parts.getLastD "")

/-- Split on `/`, keeping empty fields. -/
def splitSlashAux (cur : List Char) : List Char → List String
  | [] => [String.mk cur.reverse]
  | c :: cs =>
    if c == '/' then String.mk cur.reverse :: splitSlashAux [] cs
    else splitSlashAux (c :: cur) cs

/-- `os.path.basename(os.path.normpath(p))`: last nonempty `/`-component. -/
def basenameNorm (p : String) : String :=
  (((splitSlashAux [] p.toList).filter (· ≠ "")).getLastD "")

/-- pandas cell equality: `NaN == anything` (including `NaN == NaN`) is `False`. -/
def optEqPandas {α : Type} [BEq α] : Option α → Option α → Bool
  | some a, some b => a == b
  | _, _ => false

/-! ## Data model

Rows of the three persisted tables (`machines.csv`, `queue_job.csv`,
`users.csv`).  `Option` marks columns that hold `NaN` in the frame. -/

/-- One `GPU_{i}_Name` / `GPU_{i}_status` column pair of the machines table;
the list position in `Machine.gpus` is the GPU index `i`. -/
structure Gpu where
  gname : String
  gstatus : String
deriving DecidableEq, BEq, Repr

/-- A row of the machines table (`machines.csv`). -/
structure Machine where
  ip : String
  mname : String
  username : String
  password : String
  allowed_cpu : Nat
  cpu_used : Nat
  name_allowed_gpu : String
  path_exc : String
  gpus : List Gpu
deriving DecidableEq, BEq, Repr

/-- A row of the job queue table (`queue_job.csv`). -/
structure Job where
  jip : Option String
  jname : Option String
  username : String
  job_name : String
  jstatus : Option String
  pid : Option Int
  jpath_exc : Option String
  path_origin : String
  machine_origin : String
  script_name : String
  submit : Nat
  inicio : Option Nat
  fim : Option Nat
  n_cpu : Nat
  taskset : Option (List Nat)
  gpu_requested : Option String
  jgpu_name : Option String
  jgpu_index : Option Nat
  email : String
  notification_start : String
  notification_end : String
deriving DecidableEq, BEq, Repr

/-- A row of the user-limits table (`users.csv`). -/
structure UserRow where
  uname : String
  simultaneous_jobs_limit : Int
  gpu_limit : Int
  cpu_limit : Int
deriving DecidableEq, BEq, Repr

/-- `{ j with ... }` applied at one index of the job table
(`self.df.loc[index, cols] = ...`). -/
def modifyJob (f : Job → Job) : Nat → List Job → List Job
  | _, [] => []
  | 0, j :: js => f j :: js
  | n + 1, j :: js => j :: modifyJob f n js

/-! ## `QueueJob.__update_cpu_used` -/

/-- Whether a job's status column holds one of the given state strings
(`NaN` matches nothing). -/
def statusIn (states : List String) (j : Job) : Bool :=
  match j.jstatus with
  | some s => states.contains s
  | none => false

/-- Sum of `n_cpu` over jobs on host `(nm, ip)` whose status is one of
`states`; used both for the code-side sum (`states = ["running"]`) and
the spec-side sum over all active states. -/
def cpuSumIn (states : List String) (jobs : List Job) (nm ip : String) : Nat :=
  ((jobs.filter fun j =>
      statusIn states j && j.jname == some nm && j.jip == some ip).map Job.n_cpu).sum

def resetCpu (m : Machine) : Machine := { m with cpu_used := 0 }

/-- One step of the `__update_cpu_used` loop: debit job `j` against every
machine row matching its name and ip. -/
def addCpuStep (j : Job) (m : Machine) : Machine :=
  if j.jname == some m.mname && j.jip == some m.ip then
    { m with cpu_used := m.cpu_used + j.n_cpu }
  else m

/-- `QueueJob.__update_cpu_used`: reset every `cpu_used` to 0, then for each
job with status `"running"` add its `n_cpu` to the matching machine rows. -/
def update_cpu_used (machines : List Machine) (jobs : List Job) : List Machine :=
  (jobs.filter fun j => j.jstatus == some "running").foldl
    (fun ms j => ms.map (addCpuStep j)) (machines.map resetCpu)

/-! ## `QueueJob.__allowed_gpu` -/

/-- Inner loop of `__allowed_gpu` over the allowed-name list: each allowed
name overwrites the status, so the final tag is decided by the last name. -/
def allowedGpuStep (g : Gpu) (nm : String) : Gpu :=
  if nm == g.gname then { g with gstatus := "available" }
  else { g with gstatus := "bloqueada" }

/-- `QueueJob.__allowed_gpu`: recompute every GPU status column from the
comma-separated `name_allowed_gpu` list. -/
def allowed_gpu (machines : List Machine) : List Machine :=
  machines.map fun m =>
    { m with gpus := m.gpus.map fun g => (splitComma m.name_allowed_gpu).foldl allowedGpuStep g }

/-! ## `QueueJob.update_gpu` -/

/-- One GPU reported by `Monitor.get_usage_gpu` on a host. -/
structure GpuInfo where
  gpu_index : Nat
  iname : String
deriving DecidableEq, BEq, Repr

/-- Old status kept by `update_gpu` when the `GPU_{i}_status` column already
exists and is non-empty, else `""`. -/
def oldGpuStatus (m : Machine) (idx : Nat) : String :=
  match m.gpus[idx]? with
  | some g => g.gstatus
  | none => ""

/-- `QueueJob.update_gpu`, with the per-host SSH probe supplied as an oracle:
`none` models a connection failure (the worker returns `(name, None)` and the
host is absent from `results`), `some infos` a successful probe (`infos = []`
when `get_usage_gpu` itself raised).  When **every** probe failed,
`data_gpu` is empty and `pd.DataFrame([])` has no `name` column, so the
concluding `pd.merge(..., on="name")` raises `KeyError` before assigning —
modeled as `none` (the machines table is left as read from disk).
Otherwise the merge is an inner join on `name`, so hosts whose probe
failed are dropped while the successfully probed hosts survive. -/
def update_gpu (probe : String → Option (List GpuInfo)) (machines : List Machine) :
    Option (List Machine) :=
  if machines.all fun m => (probe m.mname).isNone then
    none
  else
    some (machines.filterMap fun m =>
      match probe m.mname with
      | none => none
      | some infos =>
        if infos.isEmpty then
          some { m with gpus := [⟨"Null", oldGpuStatus m 0⟩] }
        else
          some { m with gpus := infos.map fun gi => ⟨gi.iname, oldGpuStatus m gi.gpu_index⟩ })

/-! ## `QueueJob.__status_in_queue` -/

/-- Mark the GPU columns at the given indices `"running"`. -/
def setRunningAt (ps : List Nat) (gs : List Gpu) : List Gpu :=
  (gs.enum.map fun p => if ps.contains p.1 then { p.2 with gstatus := "running" } else p.2)

/-- `QueueJob.__status_in_queue`: for each running job, default its
`gpu_index` to 0 and flip the matching machine GPU column to `"running"`
(machine rows matched by name, ip and GPU name; a `NaN` `gpu_name` never
matches, as in pandas). -/
def status_in_queue : List Machine → List Job → List Machine × List Job
  | ms, [] => (ms, [])
  | ms, j :: js =>
    if j.jstatus == some "running" then
      let j' := { j with jgpu_index := some (j.jgpu_index.getD 0) }
      let idx := j.jgpu_index.getD 0
      let ms' := ms.map fun m =>
        if some m.mname == j.jname && some m.ip == j.jip
            && optEqPandas ((m.gpus[idx]?).map Gpu.gname) j.jgpu_name then
          { m with gpus := setRunningAt [idx] m.gpus }
        else m
      let r := status_in_queue ms' js
      (r.1, j' :: r.2)
    else
      let r := status_in_queue ms js
      (r.1, j :: r.2)

/-! ## `QueueJob.update_status_machines` -/

/-- `QueueJob.update_status_machines`: reload the catalog (the `machines`
argument is the on-disk table), refresh GPUs from the probe, recompute
allowed tags, recompute `cpu_used`, and mark queue-held GPUs running.
A `KeyError` escaping `update_gpu` aborts the whole refresh (`none`); the
caller `__monitor_now` catches it and carries on with the reloaded
table. -/
def update_status_machines (probe : String → Option (List GpuInfo))
    (machines : List Machine) (jobs : List Job) : Option (List Machine × List Job) :=
  (update_gpu probe machines).map fun ms1 =>
    let ms2 := allowed_gpu ms1
    let ms3 := update_cpu_used ms2 jobs
    status_in_queue ms3 jobs

/-! ## `QueueJob.get_status_job` and `QueueJob.update_status_jobs` -/

/-- Result of the remote status probe for one job row.
`statusFile = none` models any transport failure on the SSH round-trip
(connect failure, failed `cat`, malformed split): the source's broad
`except` then returns `("", -1)`.  `psAlive` is whether the recorded pid
appears in the remote `ps -p` output. -/
structure JobProbe where
  statusFile : Option (String × Int)
  psAlive : Bool

/-- `QueueJob.get_status_job`: read `labmonitor.status`; flip a dead
`running` pid to `not_finished_correctly`; on any exception `("", -1)`. -/
def get_status_job (p : JobProbe) : String × Int :=
  match p.statusFile with
  | none => ("", -1)
  | some (st, pid) =>
    if !p.psAlive && st == "running" then ("not_finished_correctly", pid)
    else (st, pid)

/-- Per-row step of `update_status_jobs` for the row at index `i`. -/
def stepStatus (probe : Nat → JobProbe) (i : Nat) (j : Job) : Job :=
  if j.jstatus == some "running" then
    let r := get_status_job (probe i)
    { j with jstatus := some r.1, pid := some r.2 }
  else if j.jstatus == none then { j with jstatus := some "pending" }
  else j

/-- `QueueJob.update_status_jobs`: re-probe `running` rows (writing probe
status and pid back into the row), and turn `NaN` statuses into `pending`. -/
def updateStatusJobsGo (probe : Nat → JobProbe) (i : Nat) : List Job → List Job
  | [] => []
  | j :: js => stepStatus probe i j :: updateStatusJobsGo probe (i + 1) js

def update_status_jobs (probe : Nat → JobProbe) (jobs : List Job) : List Job :=
  updateStatusJobsGo probe 0 jobs

/-! ## `QueueJob.search_available_machine` -/

/-- The CPU-availability filter (`cpu_reserve` branch of the source):
either the reserve-adjusted headroom suffices, or the host has a `Null`
GPU column and the plain headroom suffices. -/
def availableCpuRows (machines : List Machine) (n_cpu : Nat) (cpu_reserve : Bool)
    (n_cpu_reserve : Nat) : List Machine :=
  if cpu_reserve then
    machines.filter fun m =>
      ((m.allowed_cpu : Int) - (n_cpu_reserve : Int) - (m.cpu_used : Int) ≥ (n_cpu : Int))
      || (m.gpus.any (fun g => hasNullSub g.gname)
          && ((m.allowed_cpu : Int) - (m.cpu_used : Int) ≥ (n_cpu : Int)))
  else
    machines.filter fun m => (m.allowed_cpu : Int) - (m.cpu_used : Int) ≥ (n_cpu : Int)

/-- `QueueJob.search_available_machine` (the `machines` argument is the
freshly reloaded machines table). -/
def search_available_machine (machines : List Machine) (n_cpu : Nat) (gpu : Bool)
    (gpu_name : List String) (cpu_reserve : Bool) (n_cpu_reserve : Nat) : List Machine :=
  let available_cpu := availableCpuRows machines n_cpu cpu_reserve n_cpu_reserve
  if gpu then
    let available_cpu :=
      if cpu_reserve && n_cpu ≤ n_cpu_reserve then
        machines.filter fun m => (m.allowed_cpu : Int) - (m.cpu_used : Int) ≥ (n_cpu : Int)
      else available_cpu
    let statusAvail := fun (m : Machine) => m.gpus.any fun g => g.gstatus == "available"
    let nameMatch := fun (m : Machine) =>
      if gpu_name.head? != some "all" then m.gpus.any fun g => gpu_name.contains g.gname
      else m.gpus.any fun g => g.gname != ""
    let inAvail := fun (m : Machine) => (available_cpu.map Machine.mname).contains m.mname
    if gpu_name.head? == some "all" || gpu_name != ["Null"] then
      machines.filter fun m =>
        inAvail m && statusAvail m && nameMatch m
          && !(m.gpus.any fun g => g.gname == "Null")
    else
      machines.filter fun m => inAvail m && statusAvail m && nameMatch m
  else available_cpu

/-! ## `QueueJob.__get_taskset` -/

/-- Union (with multiplicity) of the parsed `taskset` strings of the rows on
`machine_name` whose status is `running` (`NaN` tasksets are skipped by the
`isinstance(t, str)` guard). -/
def runningCoreUnion (jobs : List Job) (machine_name : String) : List Nat :=
  ((jobs.filter fun j => j.jname == some machine_name && j.jstatus == some "running").filterMap
    Job.taskset).flatten

/-- The `for t in range(available_cpu)` loop of `__get_taskset`: collect
free cores, breaking once `cpu_add == n_cpu`. -/
def pickFree (allTask : List Nat) (n_cpu : Nat) : List Nat → Nat → List Nat
  | [], _ => []
  | t :: ts, added =>
    if allTask.contains t then pickFree allTask n_cpu ts added
    else if added + 1 == n_cpu then [t]
    else t :: pickFree allTask n_cpu ts (added + 1)

def allowedCpuOf (machines : List Machine) (machine_name : String) : Nat :=
  ((machines.find? fun m => m.mname == machine_name).map Machine.allowed_cpu).getD 0

/-- `QueueJob.__get_taskset`. -/
def get_taskset (machines : List Machine) (jobs : List Job) (machine_name : String)
    (n_cpu : Nat) : List Nat :=
  pickFree (runningCoreUnion jobs machine_name) n_cpu
    (List.range (allowedCpuOf machines machine_name)) 0

/-! ## `QueueJob.__limit_per_user` and `QueueJob.limit_job` -/

/-- Number of the user's rows with status exactly `running`. -/
def runningJobsOf (jobs : List Job) (user : String) : Nat :=
  (jobs.filter fun j => j.username == user && j.jstatus == some "running").length

/-- Number of the user's running rows with a non-null, non-empty `gpu_name`. -/
def runningGpuJobsOf (jobs : List Job) (user : String) : Nat :=
  (jobs.filter fun j =>
    j.username == user && j.jstatus == some "running" && (j.jgpu_name.getD "") != "").length

/-- The `(simultaneous_jobs_limit, gpu_limit)` pair looked up by
`__limit_per_user`: the user's own row, else the `default` row. -/
def findLimits (users : List UserRow) (username : String) : Option (Int × Int) :=
  match users.find? (fun u => u.uname == username) with
  | some u => some (u.simultaneous_jobs_limit, u.gpu_limit)
  | none =>
    match users.find? (fun u => u.uname == "default") with
    | some u => some (u.simultaneous_jobs_limit, u.gpu_limit)
    | none => none

/-- `QueueJob.__limit_per_user`.  Returns `none` where the source raises
(row index out of range, or `gpu_limit` unbound because neither the user
row nor the `default` row exists and the first guard passed). -/
def limit_per_user (users : List UserRow) (jobs : List Job) (index : Nat)
    (limit0 : Int) : Option Bool :=
  (jobs[index]?).bind fun row =>
    let found := findLimits users row.username
    let limit := (found.map Prod.fst).getD limit0
    if (runningJobsOf jobs row.username : Int) < limit then
      match found with
      | none => none
      | some lims =>
        if (runningGpuJobsOf jobs row.username : Int) > lims.2 && row.gpu_requested.isSome then
          some false
        else some true
    else some false

/-- `QueueJob.limit_job` with its `__monitor_now` call shape
(`limit_per_user=True`, `job_limit_per_user=3`). -/
def limit_job (users : List UserRow) (jobs : List Job) (index : Nat)
    (limitPerUser : Bool) (jobLimitPerUser : Int) : Option Bool :=
  if limitPerUser then limit_per_user users jobs index jobLimitPerUser
  else some true

/-! ## `QueueJob.__pending` -/

/-- Guard of the GPU-assignment loop in `__pending`: column status
`available` and model in the requested list (or `all` requested). -/
def gpuMatches (gpu_name : List String) (g : Gpu) : Bool :=
  g.gstatus == "available" && (gpu_name.contains g.gname || gpu_name.contains "all")

/-- The requested-GPU list as computed at the top of `__pending`:
`gpu_requested.split(",")`, or `["all"]` when the column is `NaN`. -/
def gpuNamesOf (row : Job) : List String :=
  match row.gpu_requested with
  | some s => splitComma s
  | none => ["all"]

/-- The `for n, s in zip(gpu_name_cols, gpu_status_cols)` loop of
`__pending`, run over the snapshot row's GPU columns starting at index `k`.
Every matching column overwrites the job's `(gpu_name, gpu_index)` pair —
so the surviving value is the **last** match — and every matching column
index is flipped to `running` in the machines table.  Returns the surviving
selection and the list of flipped indices. -/
def assignGpuGo (gpu_name : List String) (k : Nat) :
    List Gpu → Option (String × Nat) × List Nat
  | [] => (none, [])
  | g :: gs =>
    let r := assignGpuGo gpu_name (k + 1) gs
    if gpuMatches gpu_name g then
      (match r.1 with
       | some s => some s
       | none => some (g.gname, k), k :: r.2)
    else r

/-- Per-row oracle for the remote side effects taken during `__pending`
(and reused for the `finished` / `not_finished_correctly` emails):
`sendOk` is the SMTP result, `startPid` the pid returned by `start_job`
(`-1` on failure), `mkdirOk` / `copyOk` the results of `__make_dir_exc`
and `copy_dir` — both of which the source ignores (their failures are
caught and only printed), `now` the wall clock. -/
structure RowOracle where
  sendOk : Bool
  startPid : Int
  mkdirOk : Bool
  copyOk : Bool
  now : Nat

/-- Scheduler state threaded through a tick: the machines table, the job
table, and the log of dispatched emails as `(kind, recipient)` pairs. -/
structure SchedState where
  machines : List Machine
  jobs : List Job
  sent : List (String × String)
deriving DecidableEq, BEq, Repr

/-- `QueueJob.__pending`: search for a host, mark the row `running`, assign
cores and GPU, stage files, launch, and send the start email.  `copy_dir`
and `__make_dir_exc` swallow their own errors, so the flow does not branch
on `mkdirOk` / `copyOk`. -/
def pending (o : RowOracle) (st : SchedState) (index : Nat) : SchedState :=
  match st.jobs[index]? with
  | none => st
  | some row =>
    let n_cpu := row.n_cpu
    let gpu := row.gpu_requested.isSome
    let gpu_name := gpuNamesOf row
    let found := search_available_machine st.machines n_cpu gpu gpu_name true 6
    match found.head? with
    | none => st
    | some machine =>
      let jobs1 := modifyJob
        (fun j => { j with jstatus := some "running", jip := some machine.ip,
                           jname := some machine.mname }) index st.jobs
      let task := get_taskset st.machines jobs1 machine.mname n_cpu
      let jobs2 := modifyJob (fun j => { j with taskset := some task }) index jobs1
      let machines1 := st.machines.map fun m =>
        if m.mname == machine.mname then { m with cpu_used := m.cpu_used + n_cpu } else m
      let afterGpu :=
        if gpu then
          let r := assignGpuGo gpu_name 0 machine.gpus
          let jobs3 :=
            match r.1 with
            | some sel => modifyJob
                (fun j => { j with jgpu_name := some sel.1, jgpu_index := some sel.2 })
                index jobs2
            | none => jobs2
          let machines2 := machines1.map fun m =>
            if m.mname == machine.mname then { m with gpus := setRunningAt r.2 m.gpus } else m
          (machines2, jobs3)
        else (machines1, jobs2)
      let jobs4 := modifyJob
        (fun j => { j with jpath_exc := some (machine.path_exc ++ "/" ++ row.username
            ++ "_" ++ toString row.submit ++ "/" ++ basenameNorm row.path_origin ++ "/") })
        index afterGpu.2
      let jobs5 := modifyJob
        (fun j => { j with pid := some o.startPid, inicio := some o.now }) index jobs4
      if row.notification_start == "N" then
        let jobs6 :=
          if o.sendOk then
            modifyJob (fun j => { j with notification_start := "Y" }) index jobs5
          else jobs5
        { machines := afterGpu.1, jobs := jobs6,
          sent := st.sent ++ [("job_started", row.email)] }
      else
        { machines := afterGpu.1, jobs := jobs5, sent := st.sent }

/-! ## `QueueJob.__finished`, `QueueJob.__not_finished_correctly`,
and the `__monitor_now` dispatcher -/

/-- `QueueJob.__finished`: optionally send the completion email (flag flips
only on send success), then stamp `fim`. -/
def finishedAction (o : RowOracle) (st : SchedState) (index : Nat) : SchedState :=
  match st.jobs[index]? with
  | none => st
  | some row =>
    let withMail :=
      if row.notification_end == "N" then
        let jobs1 :=
          if o.sendOk then
            modifyJob (fun j => { j with notification_end := "Y" }) index st.jobs
          else st.jobs
        { st with jobs := jobs1, sent := st.sent ++ [("job_finished", row.email)] }
      else st
    { withMail with
      jobs := modifyJob (fun j => { j with fim := some o.now }) index withMail.jobs }

/-- `QueueJob.__not_finished_correctly`: when the end flag is `N`, send the
failure email (flag flips on success), spawn the copy-back worker (a
detached thread — no effect inside this tick), and rewrite the status;
then stamp `fim`. -/
def notFinishedAction (o : RowOracle) (st : SchedState) (index : Nat) : SchedState :=
  match st.jobs[index]? with
  | none => st
  | some row =>
    let withMail :=
      if row.notification_end == "N" then
        let jobs1 :=
          if o.sendOk then
            modifyJob (fun j => { j with notification_end := "Y" }) index st.jobs
          else st.jobs
        let jobs2 :=
          modifyJob (fun j => { j with jstatus := some "not_finished_correctly" }) index jobs1
        { st with jobs := jobs2, sent := st.sent ++ [("job_failed", row.email)] }
      else st
    { withMail with
      jobs := modifyJob (fun j => { j with fim := some o.now }) index withMail.jobs }

/-- The `action` table of `QueueJob.__monitor_now`.  `copy_finished`
starts a detached worker thread whose writes land after the tick, so
within the tick it leaves the state unchanged; `running`, `copying`,
`copy_fail`, `started` and `""` are literal no-ops (`pass`). -/
def dispatchAction (o : RowOracle) (st : SchedState) (index : Nat) : SchedState :=
  match (st.jobs[index]?).bind Job.jstatus with
  | some "pending" => pending o st index
  | some "copy_finished" => st
  | some "running" => st
  | some "finished" => finishedAction o st index
  | some "not_finished_correctly" => notFinishedAction o st index
  | some "copying" => st
  | some "copy_fail" => st
  | some "started" => st
  | some "" => st
  | _ => st

/-- Per-tick oracle: the GPU probe of `update_gpu`, the per-row status
probe of `update_status_jobs`, and the per-row effect oracle. -/
structure TickOracle where
  machineProbe : String → Option (List GpuInfo)
  jobProbe : Nat → JobProbe
  rowOracle : Nat → RowOracle

/-- The `for i, row in self.df.iterrows()` loop at the end of
`__monitor_now`: rows that fail `limit_job` are skipped, the others are
dispatched on the current state. -/
def dispatchGo (o : TickOracle) (users : List UserRow) :
    Nat → Nat → SchedState → SchedState
  | _, 0, st => st
  | i, n + 1, st =>
    let st' :=
      if limit_job users st.jobs i true 3 == some true then
        dispatchAction (o.rowOracle i) st i
      else st
    dispatchGo o users (i + 1) n st'

/-- One scheduler tick (`QueueJob.__monitor_now`): refresh machines,
re-probe job statuses, then dispatch each row through the action table.
An exception escaping `update_status_machines` is caught by the `try`
around it, leaving the reloaded machines table and the job table as they
were. -/
def monitor_now (o : TickOracle) (users : List UserRow)
    (machines : List Machine) (jobs : List Job) : SchedState :=
  let r1 := (update_status_machines o.machineProbe machines jobs).getD (machines, jobs)
  let jobs2 := update_status_jobs o.jobProbe r1.2
  dispatchGo o users 0 jobs2.length { machines := r1.1, jobs := jobs2, sent := [] }

/-! ## `QueueJob.submit` -/

/-- `QueueJob.submit`: append the new row (columns absent from the dict are
`NaN`) with `gpu_requested = ",".join(gpus)` and save. -/
def submit (df : List Job) (username job_name machine_origin script_name
    path_origin : String) (n_cpu : Nat) (email : String) (gpus : List String)
    (now : Nat) : List Job :=
  df ++ [{ jip := none, jname := none, username := username, job_name := job_name,
           jstatus := none, pid := none, jpath_exc := none, path_origin := path_origin,
           machine_origin := machine_origin, script_name := script_name, submit := now,
           inicio := none, fim := none, n_cpu := n_cpu, taskset := none,
           gpu_requested := some (String.intercalate "," gpus), jgpu_name := none,
           jgpu_index := none, email := email, notification_start := "N",
           notification_end := "N" }]

/-! ## Persisted-write traces (`Queue.save`, `QueueJob.save`,
`Data.save_machines`) -/

/-- File-system operations a save performs, in order. -/
inductive FsOp where
  | rename (src dst : String)
  | write (path : String)
deriving DecidableEq, BEq, Repr

/-- `QueueJob.save`: rename the current file to its `_old` sibling (when it
exists), then write the new csv. -/
def queueJobSaveOps (path : String) (pathExists : Bool) : List FsOp :=
  (if pathExists then [FsOp.rename path (backupPath path)] else []) ++ [FsOp.write path]

/-- `Data.save_machines`: same rename-then-write structure. -/
def saveMachinesOps (path : String) (pathExists : Bool) : List FsOp :=
  (if pathExists then [FsOp.rename path (backupPath path)] else []) ++ [FsOp.write path]

/-- `Queue.save`: a single `self.df.to_excel(self.path)` — no backup rename. -/
def queueSaveOps (path : String) : List FsOp :=
  [FsOp.write path]

/-! ## Reservation manager (`Queue`) -/

/-- Date-times as (day, time-of-day) pairs; `update_status` compares full
date-times, the boundary-email filters compare the `day` component. -/
structure DT where
  day : Nat
  time : Nat
deriving DecidableEq, BEq, Repr

def DT.le (a b : DT) : Bool :=
  a.day < b.day || (a.day == b.day && a.time ≤ b.time)

/-- A row of the reservations table (`queue.xlsx`). -/
structure Reservation where
  rip : String
  rname : String
  username : String
  rstatus : String
  inicio : DT
  fim : DT
  n_cpu : Nat
  rgpu_name : Option String
  rgpu_index : Option Int
  email : String
  notification_last_day : String
  notification_fist_day : String
deriving DecidableEq, BEq, Repr

/-- `(self.df == e).all(axis=1)` for one row pair: cell-wise pandas
equality, where a `NaN` cell equals nothing (not even another `NaN`). -/
def rowEqPandas (r e : Reservation) : Bool :=
  r.rip == e.rip && r.rname == e.rname && r.username == e.username
    && r.rstatus == e.rstatus && r.inicio == e.inicio && r.fim == e.fim
    && r.n_cpu == e.n_cpu && optEqPandas r.rgpu_name e.rgpu_name
    && optEqPandas r.rgpu_index e.rgpu_index && r.email == e.email
    && r.notification_last_day == e.notification_last_day
    && r.notification_fist_day == e.notification_fist_day

/-- One row's status refresh in `Queue.update_status`: Executando /
Em espera / Finalizado from the current date-time. -/
def resStatusAt (now : DT) (r : Reservation) : Reservation :=
  { r with rstatus :=
      if DT.le r.inicio now && DT.le now r.fim then "Executando"
      else if !(DT.le r.inicio now) then "Em espera"
      else "Finalizado" }

/-- `Queue.update_status`. -/
def updateStatusRes (now : DT) (rows : List Reservation) : List Reservation :=
  rows.map (resStatusAt now)

/-- The flag-flip loop after an email batch: for each emailed row `e` whose
send succeeded, set the flag on every table row field-wise equal to `e`. -/
def flipFlags (setFlag : Reservation → Reservation) (sendOk : Reservation → Bool)
    (emailed : List Reservation) (df : List Reservation) : List Reservation :=
  emailed.foldl
    (fun acc e =>
      if sendOk e then acc.map fun r => if rowEqPandas r e then setFlag r else r
      else acc)
    df

/-- `Queue.__monitor_now` with `fist_day = last_day = send_email = True`:
reload (the `rows` argument is the on-disk table), refresh statuses, email
the not-yet-notified rows ending today, flip their `notification_last_day`
flags on success, then the same for rows starting today, and save.
Returns the final table and the rows for which a last-day / first-day
email was dispatched. -/
def monitorNowRes (now : DT) (sendOk : Reservation → Bool) (rows : List Reservation) :
    List Reservation × List Reservation × List Reservation :=
  let df := updateStatusRes now rows
  let dfLast := df.filter fun r => r.fim.day == now.day
  let dfFist := df.filter fun r => r.inicio.day == now.day
  let sendLast := dfLast.filter fun r => r.notification_last_day == "N"
  let df1 := flipFlags (fun r => { r with notification_last_day := "Y" }) sendOk sendLast df
  let sendFist := dfFist.filter fun r => r.notification_fist_day == "N"
  let df2 := flipFlags (fun r => { r with notification_fist_day := "Y" }) sendOk sendFist df1
  (df2, sendLast, sendFist)

/-! ## Specification-side definitions

These definitions transcribe the *claim language* (the spec's wording),
to be compared against the source-derived definitions above. -/

/-- The claim's set of CPU/core-holding states: `running` or
later-but-not-finalized. -/
def activeStates : List String := ["running", "copy_finished", "copying", "not_finished_correctly"]

/-- Spec wording for C4: union of the pinned-core sets of every
non-terminal row on the host whose mask field is non-null. -/
def claimTasksetUnion (jobs : List Job) (machine_name : String) : List Nat :=
  ((jobs.filter fun j => j.jname == some machine_name && statusIn activeStates j).filterMap
    Job.taskset).flatten

/-- Spec wording for C4: the `k` smallest non-negative integers not in the
union (the integer walk is unbounded, so bounding the scan by
`union.length + k` loses nothing). -/
def claimTaskset (jobs : List Job) (machine_name : String) (k : Nat) : List Nat :=
  ((List.range ((claimTasksetUnion jobs machine_name).length + k)).filter
    (fun t => !(claimTasksetUnion jobs machine_name).contains t)).take k

/-- Index-decorated GPU column list starting at index `k`. -/
def enumFromK (k : Nat) : List Gpu → List (Nat × Gpu)
  | [] => []
  | g :: gs => (k, g) :: enumFromK (k + 1) gs

/-- The matching (available and requested) GPU columns with their indices. -/
def matchedGpus (gpu_name : List String) (k : Nat) (gs : List Gpu) : List (Nat × Gpu) :=
  (enumFromK k gs).filter fun p => gpuMatches gpu_name p.2

/-- Spec wording for C5: the first (lowest-index) available GPU whose model
is requested. -/
def firstMatchingGpu (gpu_name : List String) (gs : List Gpu) : Option (String × Nat) :=
  ((matchedGpus gpu_name 0 gs).head?).map fun p => (p.2.gname, p.1)

/-- Spec wording for C2: the trace first renames the file to its `_old`
sibling and only later writes the new file. -/
def RenamesThenWrites (ops : List FsOp) (p : String) : Prop :=
  ∃ rest, ops = FsOp.rename p (backupPath p) :: rest ∧ FsOp.write p ∈ rest

/-- Spec wording for C3: the owner's number of jobs in non-terminal states. -/
def nonTerminalJobsOf (jobs : List Job) (user : String) : Nat :=
  (jobs.filter fun j => j.username == user && statusIn activeStates j).length

/-- Spec wording for C3: the user's job-cap (own row, else `default`). -/
def jobCapOf (users : List UserRow) (user : String) : Option Int :=
  (findLimits users user).map Prod.fst

/-! ## Concrete fixtures used by counterexamples and witnesses -/

/-- A fresh submission row (all placement columns still `NaN`). -/
def baseJob : Job :=
  { jip := none, jname := none, username := "u", job_name := "jb", jstatus := none,
    pid := none, jpath_exc := none, path_origin := "/home/u/work", machine_origin := "orig",
    script_name := "run.sh", submit := 7, inicio := none, fim := none, n_cpu := 4,
    taskset := none, gpu_requested := none, jgpu_name := none, jgpu_index := none,
    email := "u@x", notification_start := "N", notification_end := "N" }

/-- A GPU-less host with a stale `cpu_used` value on disk. -/
def h1 : Machine :=
  { ip := "ip1", mname := "h1", username := "adm", password := "pw", allowed_cpu := 8,
    cpu_used := 5, name_allowed_gpu := "", path_exc := "/exc", gpus := [⟨"Null", ""⟩] }

/-- A job currently in the `copying` state on `h1`, still holding 4 CPUs. -/
def copyingJob : Job :=
  { baseJob with jip := some "ip1", jname := some "h1", jstatus := some "copying" }

def defaultUsers : List UserRow := [⟨"default", 2, 10, 100⟩]

/-- Tick oracle: GPU probes connect and report no GPU, job probes fail. -/
def c1Oracle : TickOracle :=
  { machineProbe := fun _ => some [], jobProbe := fun _ => ⟨none, false⟩,
    rowOracle := fun _ => ⟨true, 11, true, true, 99⟩ }

/-- A host with two schedulable GPUs. -/
def hA : Machine :=
  { ip := "ip2", mname := "hA", username := "adm", password := "pw", allowed_cpu := 16,
    cpu_used := 0, name_allowed_gpu := "A,B", path_exc := "/exc",
    gpus := [⟨"A", "available"⟩, ⟨"B", "available"⟩] }

/-- A pending submission requesting any GPU. -/
def gpuPendingJob : Job :=
  { baseJob with jstatus := some "pending", gpu_requested := some "all", n_cpu := 2 }

def oracleOk : RowOracle := ⟨true, 11, true, true, 99⟩

/-- Row oracle for a failing origin→execution copy (`copyOk = false`,
`start_job` then also fails and reports pid `-1`). -/
def oracleCopyFail : RowOracle := ⟨true, -1, true, false, 99⟩

def c5St : SchedState := { machines := [hA], jobs := [gpuPendingJob], sent := [] }

/-- A GPU-less host for the CPU-only placement scenario. -/
def hNoGpu : Machine :=
  { ip := "ip3", mname := "hC", username := "adm", password := "pw", allowed_cpu := 16,
    cpu_used := 0, name_allowed_gpu := "", path_exc := "/exc", gpus := [⟨"Null", ""⟩] }

def cpuPendingJob : Job := { baseJob with jstatus := some "pending" }

def c8St : SchedState := { machines := [hNoGpu], jobs := [cpuPendingJob], sent := [] }

/-- A finished-copying job row of user `u` (non-terminal, not `running`). -/
def cfJob : Job :=
  { baseJob with jstatus := some "copy_finished", jname := some "hA", jip := some "ip2" }

def c3Jobs : List Job := [cfJob, cfJob, gpuPendingJob]

def c4Machines : List Machine := [{ h1 with allowed_cpu := 4 }]

def c4Jobs : List Job := [{ copyingJob with taskset := some [0, 1] }]

/-- A healthy `running` row with a recorded pid. -/
def runningJob : Job :=
  { baseJob with jstatus := some "running", jname := some "h1", jip := some "ip1", pid := some 42 }

/-- A reservation with a null GPU column, starting today (day 10). -/
def resv : Reservation :=
  { rip := "ip1", rname := "m1", username := "u", rstatus := "", inicio := ⟨10, 0⟩,
    fim := ⟨13, 0⟩, n_cpu := 4, rgpu_name := none, rgpu_index := none, email := "e@x",
    notification_last_day := "N", notification_fist_day := "N" }

/-! ## Helper lemmas -/

theorem modifyJob_getElem_self (f : Job → Job) :
    ∀ (i : Nat) (l : List Job), (modifyJob f i l)[i]? = (l[i]?).map f
  | _, [] => by simp [modifyJob]
  | 0, j :: js => by simp [modifyJob]
  | n + 1, j :: js => by
    simp [modifyJob, modifyJob_getElem_self f n js]

/-- Sum of `n_cpu` over the rows matching a host, regardless of status. -/
def matchCpuSum (js : List Job) (nm ip : String) : Nat :=
  ((js.filter fun j => j.jname == some nm && j.jip == some ip).map Job.n_cpu).sum

theorem foldl_map_addCpuStep (js : List Job) :
    ∀ ms : List Machine,
      js.foldl (fun ms j => ms.map (addCpuStep j)) ms
        = ms.map fun m => js.foldl (fun m j => addCpuStep j m) m := by
  induction js with
  | nil => intro ms; simp
  | cons j js ih =>
    intro ms
    simp only [List.foldl_cons]
    rw [ih (ms.map (addCpuStep j)), List.map_map]
    rfl

theorem foldl_addCpuStep_spec (js : List Job) :
    ∀ m : Machine,
      js.foldl (fun m j => addCpuStep j m) m
        = { m with cpu_used := m.cpu_used + matchCpuSum js m.mname m.ip } := by
  induction js with
  | nil => intro m; simp [matchCpuSum]
  | cons j js ih =>
    intro m
    rw [List.foldl_cons, ih]
    by_cases h : (j.jname == some m.mname && j.jip == some m.ip) = true
    · simp only [addCpuStep, if_pos h]
      simp only [matchCpuSum, List.filter_cons, h]
      simp [Nat.add_assoc]
    · simp only [addCpuStep, if_neg h]
      simp only [matchCpuSum, List.filter_cons, h]
      simp

theorem statusIn_running (j : Job) :
    statusIn ["running"] j = (j.jstatus == some "running") := by
  cases h : j.jstatus with
  | none => simp [statusIn, h]
  | some s =>
    simp only [statusIn, h, List.contains_cons]
    by_cases hs : s = "running"
    · subst hs; rfl
    · have h1 : (s == "running") = false := by
        simpa using hs
      have h2 : (some s == some "running") = false := by
        simpa using hs
      simp [h1, h2]

theorem cpuSumIn_running (jobs : List Job) (nm ip : String) :
    cpuSumIn ["running"] jobs nm ip
      = matchCpuSum (jobs.filter fun j => j.jstatus == some "running") nm ip := by
  unfold cpuSumIn matchCpuSum
  rw [List.filter_filter]
  congr 2
  apply List.filter_congr
  intro j _
  rw [statusIn_running]
  cases h1 : (j.jstatus == some "running") <;>
    cases h2 : (j.jname == some nm) <;>
      cases h3 : (j.jip == some ip) <;> simp [h1, h2, h3]

/-- Projection of a machine row to the fields `__status_in_queue` never
touches. -/
def mproj (m : Machine) : String × String × Nat := (m.mname, m.ip, m.cpu_used)

theorem status_in_queue_fst_proj (js : List Job) :
    ∀ ms : List Machine, ((status_in_queue ms js).1).map mproj = ms.map mproj := by
  induction js with
  | nil => intro ms; rfl
  | cons j js ih =>
    intro ms
    by_cases h : (j.jstatus == some "running") = true
    · simp only [status_in_queue, h, if_true]
      rw [ih, List.map_map]
      apply List.map_congr_left
      intro m _
      show mproj _ = mproj m
      dsimp only [Function.comp]
      split <;> rfl
    · simp only [status_in_queue, h, if_false]
      exact ih ms

theorem update_cpu_used_getElem (machines : List Machine) (jobs : List Job) (i : Nat)
    (m' : Machine) (h : (update_cpu_used machines jobs)[i]? = some m') :
    m'.cpu_used = cpuSumIn ["running"] jobs m'.mname m'.ip := by
  unfold update_cpu_used at h
  rw [foldl_map_addCpuStep, List.map_map, List.getElem?_map] at h
  cases hm : machines[i]? with
  | none => rw [hm] at h; simp at h
  | some m =>
    rw [hm] at h
    simp only [Option.map_some', Option.some.injEq, Function.comp] at h
    rw [foldl_addCpuStep_spec] at h
    rw [← h]
    simp [resetCpu, cpuSumIn_running]

/-! ## C1 — CPU accounting -/

/-- C1 (amended): whenever the machines-refresh step of the tick
(`update_status_machines`) completes — the probe results were non-empty,
so the concluding merge ran — every machine row's `cpu_used` equals the
sum of `n_cpu` over the jobs placed on it whose state is exactly `running`
— jobs in `copy_finished`, `copying` or `not_finished_correctly` are *not*
counted, contrary to the claim's state set. -/
theorem c1_cpu_used_counts_only_running (probe : String → Option (List GpuInfo))
    (machines : List Machine) (jobs : List Job) (r : List Machine × List Job)
    (i : Nat) (m' : Machine)
    (hr : update_status_machines probe machines jobs = some r)
    (h : (r.1)[i]? = some m') :
    m'.cpu_used = cpuSumIn ["running"] jobs m'.mname m'.ip := by
  unfold update_status_machines at hr
  cases hg : update_gpu probe machines with
  | none => rw [hg] at hr; simp at hr
  | some ms1 =>
    rw [hg] at hr
    simp only [Option.map_some', Option.some.injEq] at hr
    subst hr
    have hproj := status_in_queue_fst_proj jobs
      (update_cpu_used (allowed_gpu ms1) jobs)
    have hpos :
        (((status_in_queue (update_cpu_used (allowed_gpu ms1) jobs)
            jobs).1)[i]?).map mproj
          = ((update_cpu_used (allowed_gpu ms1) jobs)[i]?).map mproj := by
      rw [← List.getElem?_map, hproj, List.getElem?_map]
    rw [h] at hpos
    cases hm3 : (update_cpu_used (allowed_gpu ms1) jobs)[i]? with
    | none => rw [hm3] at hpos; simp at hpos
    | some m3 =>
      rw [hm3] at hpos
      simp only [Option.map_some', Option.some.injEq, mproj, Prod.mk.injEq] at hpos
      obtain ⟨hname, hip, hcpu⟩ := hpos
      rw [hcpu, hname, hip]
      exact update_cpu_used_getElem _ jobs i m3 hm3

/-- C1 witness: the machine refreshed from `h1` with one `copying` job in
the table carries `cpu_used = 0`, the running-only sum. -/
theorem c1_cpu_used_counts_only_running_witness :
    ({ h1 with cpu_used := 0, gpus := [⟨"Null", "bloqueada"⟩] } : Machine).cpu_used
      = cpuSumIn ["running"] [copyingJob] "h1" "ip1" :=
  c1_cpu_used_counts_only_running (fun _ => some []) [h1] [copyingJob]
    ([{ h1 with cpu_used := 0, gpus := [⟨"Null", "bloqueada"⟩] }], [copyingJob]) 0
    { h1 with cpu_used := 0, gpus := [⟨"Null", "bloqueada"⟩] } (by decide) (by decide)

/-- C1 counterexample: a tick over one job in state `copying` holding 4
CPUs on `h1` ends with `cpu_used = 0`, while the claim's sum over
`{running, copy_finished, copying, not_finished_correctly}` is 4. -/
theorem c1_cpu_used_counterexample :
    (monitor_now c1Oracle defaultUsers [h1] [copyingJob]).machines.map Machine.cpu_used = [0]
    ∧ cpuSumIn activeStates (monitor_now c1Oracle defaultUsers [h1] [copyingJob]).jobs
        "h1" "ip1" = 4
    ∧ (0 : Nat) ≠ 4 :=
  ⟨by decide, by decide, by decide⟩

/-! ## C2 — crash-safe persistence -/

/-- C2 (amended): the jobs-table save (`QueueJob.save`) and the
machines-table save (`Data.save_machines`) rename the existing file to its
`_old` sibling before writing the new file; the reservations-table save
(`Queue.save`) writes in place with no backup rename. -/
theorem c2_backup_rename_not_reservations (p : String) :
    RenamesThenWrites (queueJobSaveOps p true) p
    ∧ RenamesThenWrites (saveMachinesOps p true) p
    ∧ ¬RenamesThenWrites (queueSaveOps p) p := by
  refine ⟨⟨[FsOp.write p], by simp [queueJobSaveOps], by simp⟩,
          ⟨[FsOp.write p], by simp [saveMachinesOps], by simp⟩, ?_⟩
  rintro ⟨rest, hops, -⟩
  simp [queueSaveOps] at hops

/-- C2 counterexample: the reservations-table write (`Queue.save` on
`queue.xlsx`) performs no rename-to-`_old` before writing. -/
theorem c2_reservations_counterexample :
    ¬RenamesThenWrites (queueSaveOps "queue.xlsx") "queue.xlsx" := by
  rintro ⟨rest, hops, -⟩
  simp [queueSaveOps] at hops

/-! ## C3 — per-user limit check -/

/-- C3 (amended): with the user's (or default) limits row found, the limit
check blocks a row iff the user's count of jobs in state exactly `running`
has reached the job-cap, or the row carries a GPU request and the user's
count of running GPU jobs strictly exceeds the gpu-cap.  Jobs in other
non-terminal states are not counted, and the GPU comparison is strict. -/
theorem c3_limit_blocks_on_running_counts (users : List UserRow) (jobs : List Job)
    (index : Nat) (row : Job) (cap gcap : Int)
    (hrow : jobs[index]? = some row)
    (hlim : findLimits users row.username = some (cap, gcap)) :
    limit_job users jobs index true 3 = some false
      ↔ (cap ≤ (runningJobsOf jobs row.username : Int)
          ∨ (gcap < (runningGpuJobsOf jobs row.username : Int)
              ∧ row.gpu_requested.isSome = true)) := by
  show limit_per_user users jobs index 3 = some false ↔ _
  unfold limit_per_user
  rw [hrow, Option.some_bind, hlim]
  simp only [Option.map_some', Option.getD_some]
  by_cases h1 : (runningJobsOf jobs row.username : Int) < cap
  · rw [if_pos h1]
    by_cases hg : gcap < (runningGpuJobsOf jobs row.username : Int)
    · by_cases hs : row.gpu_requested.isSome = true
      · have hb : (decide ((runningGpuJobsOf jobs row.username : Int) > gcap)
            && row.gpu_requested.isSome) = true := by simp [hg, hs]
        rw [if_pos hb]
        exact iff_of_true rfl (Or.inr ⟨hg, hs⟩)
      · have hb : (decide ((runningGpuJobsOf jobs row.username : Int) > gcap)
            && row.gpu_requested.isSome) = false := by simp [hs]
        rw [if_neg (by simp [hb])]
        apply iff_of_false
        · simp
        · rintro (hge | ⟨_, hs'⟩)
          · omega
          · exact hs hs'
    · have hb : (decide ((runningGpuJobsOf jobs row.username : Int) > gcap)
          && row.gpu_requested.isSome) = false := by simp [hg]
      rw [if_neg (by simp [hb])]
      apply iff_of_false
      · simp
      · rintro (hge | ⟨hg', _⟩)
        · omega
        · exact hg hg'
  · rw [if_neg h1]
    exact iff_of_true rfl (Or.inl (by omega))

/-- C3 witness: user `u` with job-cap 0 is blocked. -/
theorem c3_limit_blocks_witness :
    limit_job [(⟨"u", 0, 0, 0⟩ : UserRow)] [baseJob] 0 true 3 = some false :=
  (c3_limit_blocks_on_running_counts [⟨"u", 0, 0, 0⟩] [baseJob] 0 baseJob 0 0
    (by decide) (by decide)).mpr (Or.inl (by decide))

/-- C3 counterexample: user `u` holds two jobs in the non-terminal state
`copy_finished` and has job-cap 2, so the claim says the third (pending)
row is blocked — but the code's limit check passes it (`some true`),
because it counts only rows in state exactly `running`. -/
theorem c3_limit_counterexample :
    limit_job defaultUsers c3Jobs 2 true 3 = some true
    ∧ nonTerminalJobsOf c3Jobs "u" = 2
    ∧ jobCapOf defaultUsers "u" = some 2 :=
  ⟨by decide, by decide, by decide⟩

/-! ## C4 — core-mask allocation -/

theorem pickFree_eq (allTask : List Nat) (n : Nat) :
    ∀ (l : List Nat) (added : Nat), added < n →
      pickFree allTask n l added
        = (l.filter fun t => !allTask.contains t).take (n - added) := by
  intro l
  induction l with
  | nil => intro added _; simp [pickFree]
  | cons t ts ih =>
    intro added hlt
    unfold pickFree
    by_cases hc : allTask.contains t = true
    · have hm : t ∈ allTask := by simpa using hc
      rw [if_pos hc, ih added hlt]
      simp [List.filter_cons, hm]
    · have hm : t ∉ allTask := by simpa using hc
      rw [if_neg hc]
      by_cases hb : added + 1 = n
      · rw [if_pos (by simpa using hb)]
        have h1 : n - added = 1 := by omega
        simp [List.filter_cons, hm, h1, List.take_succ_cons]
      · rw [if_neg (by simpa using hb), ih (added + 1) (by omega)]
        have h3 : n - added = (n - (added + 1)) + 1 := by omega
        simp [List.filter_cons, hm, h3, List.take_succ_cons]

/-- C4 (amended): for a request of `k ≥ 1` cores, the assigned mask is the
first `k` core indices **below the host's `allowed_cpu`** that are not in
the union of the tasksets of jobs in state exactly `running` on that host
— not the union over all non-terminal jobs, and possibly shorter than `k`
when free cores below `allowed_cpu` run out. -/
theorem c4_taskset_running_only (machines : List Machine) (jobs : List Job)
    (nm : String) (k : Nat) (hk : 1 ≤ k) :
    get_taskset machines jobs nm k
      = ((List.range (allowedCpuOf machines nm)).filter
          fun t => !(runningCoreUnion jobs nm).contains t).take k := by
  unfold get_taskset
  rw [pickFree_eq _ _ _ 0 (by omega)]
  simp

/-- C4 witness: on `h1` restricted to 4 cores, with one `copying` row
holding `{0,1}`, a 2-core request is assigned `[0,1]` — the first two
cores not pinned by any *running* row. -/
theorem c4_taskset_running_only_witness :
    get_taskset c4Machines c4Jobs "h1" 2
      = ((List.range (allowedCpuOf c4Machines "h1")).filter
          fun t => !(runningCoreUnion c4Jobs "h1").contains t).take 2 :=
  c4_taskset_running_only c4Machines c4Jobs "h1" 2 (by decide)

/-- C4 counterexample: with a non-terminal (`copying`) row pinning cores
`{0,1}` on a 4-core host, the code assigns `[0,1]` to a new 2-core request
(overlapping the copying row's mask), while the claim's rule — the 2
smallest integers outside the union over non-terminal rows — gives
`[2,3]`. -/
theorem c4_taskset_counterexample :
    get_taskset c4Machines c4Jobs "h1" 2 = [0, 1]
    ∧ claimTaskset c4Jobs "h1" 2 = [2, 3]
    ∧ ([0, 1] : List Nat) ≠ [2, 3] :=
  ⟨by decide, by decide, by decide⟩

/-! ## C5 — GPU selection during placement -/

theorem matchedGpus_cons (names : List String) (k : Nat) (g : Gpu) (gs : List Gpu) :
    matchedGpus names k (g :: gs)
      = if gpuMatches names g then (k, g) :: matchedGpus names (k + 1) gs
        else matchedGpus names (k + 1) gs := by
  simp only [matchedGpus, enumFromK, List.filter_cons]

theorem assignGpuGo_spec (names : List String) :
    ∀ (k : Nat) (gs : List Gpu),
      assignGpuGo names k gs
        = (((matchedGpus names k gs).getLast?).map (fun p => (p.2.gname, p.1)),
           (matchedGpus names k gs).map Prod.fst) := by
  intro k gs
  induction gs generalizing k with
  | nil => rfl
  | cons g gs ih =>
    rw [matchedGpus_cons]
    simp only [assignGpuGo]
    rw [ih (k + 1)]
    by_cases hm : gpuMatches names g = true
    · rw [if_pos hm, if_pos hm]
      cases hT : matchedGpus names (k + 1) gs with
      | nil => simp
      | cons a tl =>
        have hsome : ∃ v, (a :: tl).getLast? = some v :=
          Option.isSome_iff_exists.mp (by simp [List.getLast?_isSome])
        obtain ⟨v, hv⟩ := hsome
        simp [hv, List.getLast?_cons_cons]
    · rw [if_neg hm, if_neg hm]

/-- C5 (amended): in the GPU-assignment loop of `__pending` the recorded
`(gpu_name, gpu_index)` pair is the **last** (highest-index) GPU column
whose tag is `available` and whose model matches the request, and **every**
matching column — not just one — is flipped to `running` in the machines
table. -/
theorem c5_gpu_assignment_last_match_flips_all (gpu_name : List String) (gs : List Gpu) :
    (assignGpuGo gpu_name 0 gs).1
        = ((matchedGpus gpu_name 0 gs).getLast?).map (fun p => (p.2.gname, p.1))
    ∧ (assignGpuGo gpu_name 0 gs).2 = (matchedGpus gpu_name 0 gs).map Prod.fst := by
  have h := assignGpuGo_spec gpu_name 0 gs
  exact ⟨by rw [h], by rw [h]⟩

/-- C5 counterexample: placing a `gpu_requested = all` job on a host with
two available GPUs `A` (index 0) and `B` (index 1) records index 1 (model
`B`) — the last match, not the first (`A`, index 0) — and flips **both**
GPU tags to `running`. -/
theorem c5_gpu_assignment_counterexample :
    ((pending oracleOk c5St 0).jobs[0]?).map Job.jgpu_index = some (some 1)
    ∧ ((pending oracleOk c5St 0).jobs[0]?).map Job.jgpu_name = some (some "B")
    ∧ firstMatchingGpu ["all"] hA.gpus = some ("A", 0)
    ∧ ((pending oracleOk c5St 0).machines.map fun m => m.gpus.map Gpu.gstatus)
        = [["running", "running"]] :=
  ⟨by decide, by decide, by decide, by decide⟩

/-! ## C6 — reservation boundary emails -/

theorem optEqPandas_none_left {α : Type} [BEq α] (x : Option α) :
    optEqPandas (none : Option α) x = false := by
  cases x <;> rfl

theorem rowEqPandas_none_gpu (r e : Reservation) (h : r.rgpu_name = none) :
    rowEqPandas r e = false := by
  simp [rowEqPandas, h, optEqPandas_none_left]

theorem flipFlags_preserves_null_gpu (setFlag : Reservation → Reservation)
    (sendOk : Reservation → Bool) (emailed : List Reservation) :
    ∀ (df : List Reservation) (i : Nat) (y : Reservation),
      df[i]? = some y → y.rgpu_name = none →
      (flipFlags setFlag sendOk emailed df)[i]? = some y := by
  induction emailed with
  | nil => intro df i y h _; exact h
  | cons e es ih =>
    intro df i y h hy
    unfold flipFlags
    rw [List.foldl_cons]
    show (flipFlags setFlag sendOk es _)[i]? = some y
    apply ih _ _ _ _ hy
    by_cases hs : sendOk e = true
    · rw [if_pos hs, List.getElem?_map, h]
      simp [rowEqPandas_none_gpu y e hy]
    · rw [if_neg hs]
      exact h

/-- C6 (amended): on a reservation-manager tick the last-day (resp.
first-day) emails are dispatched exactly for the refreshed rows whose end
(resp. start) date equals today and whose flag is `N`; but the
success-conditional flag flip matches rows by whole-row pandas equality,
under which a `NaN` cell equals nothing — so a row with a null `gpu_name`
keeps both flags at `N` even after a successful send (and is re-emailed on
every later tick). -/
theorem c6_boundary_email_dispatch_and_null_rows (now : DT) (sendOk : Reservation → Bool)
    (rows : List Reservation) :
    (monitorNowRes now sendOk rows).2.1
        = (updateStatusRes now rows).filter
            (fun r => r.fim.day == now.day && r.notification_last_day == "N")
    ∧ (monitorNowRes now sendOk rows).2.2
        = (updateStatusRes now rows).filter
            (fun r => r.inicio.day == now.day && r.notification_fist_day == "N")
    ∧ ∀ (i : Nat) (x : Reservation), rows[i]? = some x → x.rgpu_name = none →
        (((monitorNowRes now sendOk rows).1)[i]?).map Reservation.notification_fist_day
            = some x.notification_fist_day
        ∧ (((monitorNowRes now sendOk rows).1)[i]?).map Reservation.notification_last_day
            = some x.notification_last_day := by
  refine ⟨?_, ?_, ?_⟩
  · show ((updateStatusRes now rows).filter fun r => r.fim.day == now.day).filter
        (fun r => r.notification_last_day == "N") = _
    rw [List.filter_filter]
    apply List.filter_congr
    intro r _
    cases h1 : (r.fim.day == now.day) <;>
      cases h2 : (r.notification_last_day == "N") <;> simp [h1, h2]
  · show ((updateStatusRes now rows).filter fun r => r.inicio.day == now.day).filter
        (fun r => r.notification_fist_day == "N") = _
    rw [List.filter_filter]
    apply List.filter_congr
    intro r _
    cases h1 : (r.inicio.day == now.day) <;>
      cases h2 : (r.notification_fist_day == "N") <;> simp [h1, h2]
  · intro i x hx hnull
    have hdf : (updateStatusRes now rows)[i]? = some (resStatusAt now x) := by
      unfold updateStatusRes
      rw [List.getElem?_map, hx, Option.map_some']
    have hnull' : (resStatusAt now x).rgpu_name = none := hnull
    have h1 := flipFlags_preserves_null_gpu
      (fun r => { r with notification_last_day := "Y" }) sendOk
      (((updateStatusRes now rows).filter fun r => r.fim.day == now.day).filter
        fun r => r.notification_last_day == "N")
      (updateStatusRes now rows) i _ hdf hnull'
    have h2 := flipFlags_preserves_null_gpu
      (fun r => { r with notification_fist_day := "Y" }) sendOk
      (((updateStatusRes now rows).filter fun r => r.inicio.day == now.day).filter
        fun r => r.notification_fist_day == "N")
      _ i _ h1 hnull'
    constructor
    · show (((monitorNowRes now sendOk rows).1)[i]?).map Reservation.notification_fist_day = _
      unfold monitorNowRes
      rw [h2]
      rfl
    · show (((monitorNowRes now sendOk rows).1)[i]?).map Reservation.notification_last_day = _
      unfold monitorNowRes
      rw [h2]
      rfl

/-- C6 witness: for the null-GPU reservation `resv` starting on day 10,
both notification flags survive the tick unchanged. -/
theorem c6_boundary_email_witness :
    (((monitorNowRes ⟨10, 5⟩ (fun _ => true) [resv]).1)[0]?).map
        Reservation.notification_fist_day = some "N"
    ∧ (((monitorNowRes ⟨10, 5⟩ (fun _ => true) [resv]).1)[0]?).map
        Reservation.notification_last_day = some "N" :=
  (c6_boundary_email_dispatch_and_null_rows ⟨10, 5⟩ (fun _ => true) [resv]).2.2
    0 resv rfl rfl

/-- C6 counterexample: the null-GPU reservation `resv` starts today and is
emailed with a *successful* send, yet its first-day flag stays `N`, and a
second tick dispatches the same first-day email again. -/
theorem c6_boundary_email_counterexample :
    (monitorNowRes ⟨10, 5⟩ (fun _ => true) [resv]).2.2 ≠ []
    ∧ ((monitorNowRes ⟨10, 5⟩ (fun _ => true) [resv]).1).map
        Reservation.notification_fist_day = ["N"]
    ∧ (monitorNowRes ⟨10, 5⟩ (fun _ => true)
        ((monitorNowRes ⟨10, 5⟩ (fun _ => true) [resv]).1)).2.2 ≠ [] :=
  ⟨by decide, by decide, by decide⟩

/-! ## C7 — transport failure while probing a running job -/

theorem updateStatusJobsGo_getElem (probe : Nat → JobProbe) :
    ∀ (js : List Job) (k i : Nat),
      (updateStatusJobsGo probe k js)[i]? = (js[i]?).map (stepStatus probe (k + i)) := by
  intro js
  induction js with
  | nil => intro k i; simp [updateStatusJobsGo]
  | cons j js ih =>
    intro k i
    cases i with
    | zero => simp [updateStatusJobsGo]
    | succ n =>
      simp only [updateStatusJobsGo, List.getElem?_cons_succ]
      rw [ih (k + 1) n]
      have h : k + 1 + n = k + (n + 1) := by omega
      rw [h]

/-- C7 (corrected): when the remote status probe of a `running` row fails
(SSH connect failure or command error), `update_status_jobs` does **not**
leave the row unchanged: it overwrites the row's status with the empty
string and its pid with `-1` (the `""` status is dispatched to the no-op
action). -/
theorem c7_probe_failure_clears_status (probe : Nat → JobProbe) (jobs : List Job)
    (i : Nat) (j : Job) (hj : jobs[i]? = some j) (hr : j.jstatus = some "running")
    (hp : (probe i).statusFile = none) :
    (update_status_jobs probe jobs)[i]? = some { j with jstatus := some "", pid := some (-1) } := by
  unfold update_status_jobs
  rw [updateStatusJobsGo_getElem probe jobs 0 i, hj]
  simp only [Option.map_some', Option.some.injEq, Nat.zero_add]
  unfold stepStatus
  rw [if_pos (by simp [hr])]
  unfold get_status_job
  rw [hp]

/-- C7 witness: the probe-failure overwrite evaluated on `runningJob`. -/
theorem c7_probe_failure_clears_status_witness :
    (update_status_jobs (fun _ => ⟨none, false⟩) [runningJob])[0]?
      = some { runningJob with jstatus := some "", pid := some (-1) } :=
  c7_probe_failure_clears_status (fun _ => ⟨none, false⟩) [runningJob] 0 runningJob
    rfl rfl rfl

/-- C7 counterexample: `runningJob` (status `running`, pid 42) comes out of
`update_status_jobs` with status `""` and pid `-1` after a failed probe —
not with its status and pid unchanged as the claim states. -/
theorem c7_probe_failure_counterexample :
    ((update_status_jobs (fun _ => ⟨none, false⟩) [runningJob])[0]?).map
        (fun j => (j.jstatus, j.pid)) = some (some "", some (-1))
    ∧ runningJob.jstatus = some "running"
    ∧ runningJob.pid = some 42
    ∧ (some "" : Option String) ≠ some "running" :=
  ⟨by decide, by decide, by decide, by decide⟩

/-! ## C8 — outbound copy failure during placement -/

/-- C8 (corrected): once `__pending` finds a host, the row has already been
marked `running` *before* the origin→execution copy, and `copy_dir`
swallows its own errors — the placement outcome is literally independent
of the copy result (`copyOk`), the row ends the tick in state `running`
(not `pending`), and the start email is still dispatched when the start
flag is `N`. -/
theorem c8_copy_failure_ignored (o : RowOracle) (st : SchedState) (index : Nat)
    (row : Job) (m : Machine) (hrow : st.jobs[index]? = some row)
    (hm : (search_available_machine st.machines row.n_cpu row.gpu_requested.isSome
        (gpuNamesOf row) true 6).head? = some m) :
    pending o st index = pending { o with copyOk := !o.copyOk } st index
    ∧ (((pending o st index).jobs[index]?).map Job.jstatus) = some (some "running")
    ∧ (row.notification_start = "N" →
        ("job_started", row.email) ∈ (pending o st index).sent) := by
  refine ⟨?_, ?_, ?_⟩
  · unfold pending
    rw [hrow]
  · simp only [pending, hrow, hm]
    by_cases hn : (row.notification_start == "N") = true <;>
      by_cases hs : o.sendOk = true <;>
        by_cases hg : row.gpu_requested.isSome = true <;>
          cases hsel : (assignGpuGo (gpuNamesOf row) 0 m.gpus).1 <;>
            simp [hn, hs, hg, hsel, modifyJob_getElem_self, hrow]
  · intro hstart
    have hn : (row.notification_start == "N") = true := by simp [hstart]
    simp only [pending, hrow, hm]
    by_cases hg : row.gpu_requested.isSome = true <;>
      cases hsel : (assignGpuGo (gpuNamesOf row) 0 m.gpus).1 <;>
        simp [hn, hg, hsel]

/-- C8 witness: the CPU-only placement of `cpuPendingJob` on `hNoGpu`. -/
theorem c8_copy_failure_ignored_witness :
    (((pending oracleCopyFail c8St 0).jobs[0]?).map Job.jstatus) = some (some "running")
    ∧ ("job_started", "u@x") ∈ (pending oracleCopyFail c8St 0).sent := by
  have h := c8_copy_failure_ignored oracleCopyFail c8St 0 cpuPendingJob
    { hNoGpu with cpu_used := 0 } (by decide) (by decide)
  exact ⟨h.2.1, h.2.2 rfl⟩

/-- C8 counterexample: with the origin→execution copy failing
(`copyOk = false`, `start_job` reporting `-1`), the placed row ends the
tick with status `running` — not `pending` as the claim states — and the
start email has been dispatched. -/
theorem c8_copy_failure_counterexample :
    (((pending oracleCopyFail c8St 0).jobs[0]?).map Job.jstatus) = some (some "running")
    ∧ (((pending oracleCopyFail c8St 0).jobs[0]?).map Job.jstatus) ≠ some (some "pending")
    ∧ (pending oracleCopyFail c8St 0).sent = [("job_started", "u@x")]
    ∧ (((pending oracleCopyFail c8St 0).jobs[0]?).map Job.notification_start)
        = some "Y" :=
  ⟨by decide, by decide, by decide, by decide⟩

/-! ## C9 — host records across the live refresh -/

/-- Probe for the mixed table: `h1`'s SSH connection fails, `hA`'s probe
succeeds and reports its two GPUs. -/
def c9Probe : String → Option (List GpuInfo) :=
  fun nm => if nm == "h1" then none else some [⟨0, "A"⟩, ⟨1, "B"⟩]

/-- Tick oracle in which every host's SSH connection fails. -/
def c9FailOracle : TickOracle :=
  { machineProbe := fun _ => none, jobProbe := fun _ => ⟨none, false⟩,
    rowOracle := fun _ => ⟨true, 1, true, true, 0⟩ }

/-- C9: evaluated at the failing input — the two-host table where `h1`'s
SSH connection fails while `hA`'s probe succeeds — `update_gpu`'s
concluding inner merge on `name` silently **drops** `h1` and keeps only
`hA`.  The other error paths behave as the claim says: when *every*
connection fails the merge raises `KeyError` against the column-less
empty frame (modeled `none`), `__monitor_now` catches it and the tick
keeps the reloaded table intact; and a failed GPU query inside a
successful connection degrades to a `Null` GPU record with the host
kept. -/
theorem c9_connect_failure_drops_host :
    update_gpu c9Probe [h1, hA] = some [hA]
    ∧ update_gpu (fun _ => none) [h1] = none
    ∧ update_gpu (fun _ => some []) [h1]
        = some [{ h1 with gpus := [⟨"Null", oldGpuStatus h1 0⟩] }]
    ∧ (monitor_now c9FailOracle defaultUsers [h1] []).machines = [h1] :=
  ⟨by decide, by decide, by decide, by decide⟩

/-! ## C10 — `submit` and the GPU-request column -/

/-- C10 (amended): `submit` always stores `gpu_requested` as a non-null
string, namely `",".join(gpus)` — equal to `"all"` under the default
argument — but the string is **empty** when the `gpus` argument is the
empty list (as the dashboard's unselected multiselect produces), so
"non-null and non-empty" does not hold for every call. -/
theorem c10_submit_gpu_requested (df : List Job) (u jn mo sn po : String) (n : Nat)
    (e : String) (gpus : List String) (now : Nat) :
    ((submit df u jn mo sn po n e gpus now)[df.length]?).map Job.gpu_requested
        = some (some (String.intercalate "," gpus))
    ∧ ((submit df u jn mo sn po n e ["all"] now)[df.length]?).map Job.gpu_requested
        = some (some "all") := by
  constructor
  · unfold submit
    rw [List.getElem?_append_right (Nat.le_refl df.length)]
    simp
  · unfold submit
    rw [List.getElem?_append_right (Nat.le_refl df.length)]
    simp
    rfl

/-- C10 counterexample: `submit` called with `gpus = []` (reachable from
the dashboard when no GPU is selected) stores the **empty** string in
`gpu_requested`, contradicting "non-null, non-empty" — and that empty
string reads back as null after a csv round-trip. -/
theorem c10_submit_empty_counterexample :
    ((submit [] "u" "j" "m" "s" "/p" 2 "e" [] 3).map Job.gpu_requested) = [some ""]
    ∧ ("" : String) ≠ "all" :=
  ⟨by decide, by decide⟩

end LabMonitor
